import Mathlib

/-!
Verification of the Agent Orchestration & Tool Dispatch Layer of the
agentic-rag-usecase back-end (Python sources under
src/agentic-rag-usecase/back-end/).

The embedding is shallow: each Python function relevant to a claim is
translated into a Lean definition.  Python exceptions are made explicit
with the `PyResult` type: an external effect (a database call, an LLM
chain invocation, a tool-source loader) is passed in as a `PyResult`
value describing whether that call returned normally or raised, and the
translated function propagates or catches it exactly where the Python
`try`/`except` blocks do.
-/

namespace AgenticRag

/-- Outcome of a Python call: a normal return value, or a raised
exception carrying its message string. -/
inductive PyResult (α : Type) where
  | ok (val : α)
  | raises (msg : String)
deriving DecidableEq, Repr

/-- `true` exactly when the call returned normally (did not raise). -/
def PyResult.isOk {α : Type} : PyResult α → Bool
  | .ok _ => true
  | .raises _ => false

/-- A business client record, from `db` CRM model used by
`tools/crm_tools.py` (fields as read by the tool bodies). -/
structure Customer where
  customer_id : Nat
  name : String
  address : String
  email : String
  phone : String
  credit : Int
  active_status : String
deriving DecidableEq, Repr

/-- The multi-line client dump built by the f-string in
`get_business_client_by_id_tool` (crm_tools.py lines 57-63).  Python's
currency formatting of `credit` is abstracted by `toString`. -/
def formatClient (c : Customer) : String :=
  "Business Client ID: " ++ toString c.customer_id ++
  "\nName: " ++ c.name ++
  "\nAddress: " ++ c.address ++
  "\nEmail: " ++ c.email ++
  "\nPhone: " ++ c.phone ++
  "\nCredit: " ++ toString c.credit ++
  "\nStatus: " ++ c.active_status

/-- Body of the `try` block of `get_business_client_by_id_tool`
(crm_tools.py lines 52-65): the CRM manager call `get_customer` is the
external effect `db` and its exception propagates inside the block. -/
def crmByIdBody (client_id : Nat) (db : PyResult (Option Customer)) :
    PyResult String :=
  match db with
  | .raises e => .raises e
  | .ok (some c) => .ok (formatClient c)
  | .ok none =>
      .ok ("Error: Business client with ID " ++ toString client_id ++
           " not found in the database.")

/-- `get_business_client_by_id_tool` (crm_tools.py lines 35-68): the
`except Exception` clause catches anything the body raised and returns
an error string as the tool result. -/
def get_business_client_by_id_tool (client_id : Nat)
    (db : PyResult (Option Customer)) : PyResult String :=
  match crmByIdBody client_id db with
  | .ok s => .ok s
  | .raises e => .ok ("Error retrieving business client: " ++ e)

/-- `query_music_database_tool` (sql_tools.py lines 155-204): the chain
construction and invocation are the external effect `chain`; the
`except Exception` clause converts a raise into an error-string result. -/
def query_music_database_tool (question : String)
    (chain : PyResult String) : PyResult String :=
  match chain with
  | .ok r => .ok r
  | .raises e =>
      .ok ("Error querying music database: " ++ e ++
           "\n\nPlease try rephrasing your question or make it more specific.")

/-- Outcome of one dispatch run of the reasoning loop (spec section on
DispatchResult): final assistant text plus the tool-result texts
accumulated during the run. -/
structure DispatchResult where
  message : String
  toolResults : List String
deriving DecidableEq, Repr

/-- Sequencing of tool invocations by the executor driving the reasoning
loop (the LangGraph agent created in `services/agent_service.py`): tool
results are consumed in order, and an invocation that raises an uncaught
exception aborts the whole run with that exception. -/
def runToolCalls : List (PyResult String) → PyResult (List String)
  | [] => .ok []
  | r :: rs =>
      match r with
      | .raises e => .raises e
      | .ok s =>
          match runToolCalls rs with
          | .raises e => .raises e
          | .ok ss => .ok (s :: ss)

/-- One dispatch run: execute the tool invocations the model requested,
then produce the final DispatchResult; an uncaught tool exception would
propagate out of the run. -/
def dispatchRun (toolInvocations : List (PyResult String))
    (finalAnswer : String) : PyResult DispatchResult :=
  match runToolCalls toolInvocations with
  | .raises e => .raises e
  | .ok rs => .ok ⟨finalAnswer, rs⟩

lemma crm_tool_isOk (client_id : Nat) (db : PyResult (Option Customer)) :
    (get_business_client_by_id_tool client_id db).isOk = true := by
  cases db with
  | ok v => cases v <;> rfl
  | raises e => rfl

lemma sql_tool_isOk (question : String) (chain : PyResult String) :
    (query_music_database_tool question chain).isOk = true := by
  cases chain <;> rfl

lemma runToolCalls_all_isOk (rs : List (PyResult String))
    (h : ∀ r ∈ rs, r.isOk = true) : (runToolCalls rs).isOk = true := by
  induction rs with
  | nil => rfl
  | cons r rs ih =>
      have hr := h r (List.mem_cons_self r rs)
      have hrs := ih (fun x hx => h x (List.mem_cons_of_mem r hx))
      cases r with
      | raises e => simp [PyResult.isOk] at hr
      | ok s =>
          cases hEq : runToolCalls rs with
          | raises e => rw [hEq] at hrs; simp [PyResult.isOk] at hrs
          | ok ss => simp [runToolCalls, hEq, PyResult.isOk]

/-- C1: every dispatch run whose tool invocations are the CRM lookup
tool and the natural-language SQL tool terminates normally with a
DispatchResult, whatever the underlying database and LLM-chain calls do
(including raising); an exception inside a tool is captured and surfaced
as the tool-result text, never re-raised out of the tool. -/
theorem tool_errors_never_abort_dispatch
    (crmCalls : List (Nat × PyResult (Option Customer)))
    (sqlCalls : List (String × PyResult String))
    (ans : String) (cid : Nat) (q e : String) :
    (dispatchRun
      ((crmCalls.map fun p => get_business_client_by_id_tool p.1 p.2) ++
       (sqlCalls.map fun p => query_music_database_tool p.1 p.2)) ans).isOk
      = true
  ∧ get_business_client_by_id_tool cid (.raises e) =
      .ok ("Error retrieving business client: " ++ e)
  ∧ query_music_database_tool q (.raises e) =
      .ok ("Error querying music database: " ++ e ++
           "\n\nPlease try rephrasing your question or make it more specific.") := by
  refine ⟨?_, rfl, rfl⟩
  have hall : ∀ r ∈ (crmCalls.map fun p => get_business_client_by_id_tool p.1 p.2) ++
      (sqlCalls.map fun p => query_music_database_tool p.1 p.2), r.isOk = true := by
    intro r hr
    rcases List.mem_append.mp hr with hmem | hmem
    · rcases List.mem_map.mp hmem with ⟨p, _, rfl⟩
      exact crm_tool_isOk p.1 p.2
    · rcases List.mem_map.mp hmem with ⟨p, _, rfl⟩
      exact sql_tool_isOk p.1 p.2
  have hrun := runToolCalls_all_isOk _ hall
  unfold dispatchRun
  cases hEq : runToolCalls ((crmCalls.map fun p => get_business_client_by_id_tool p.1 p.2) ++
      (sqlCalls.map fun p => query_music_database_tool p.1 p.2)) with
  | raises e2 => rw [hEq] at hrun; simp [PyResult.isOk] at hrun
  | ok rs => rfl

/-- Health statuses from `api/models.py` HealthStatus. -/
inductive HealthStatus where
  | healthy
  | degraded
  | unhealthy
deriving DecidableEq, Repr

/-- Per-component health from `api/models.py` ComponentHealth
(the `details` map is not needed by any claim and is elided). -/
structure ComponentHealth where
  status : HealthStatus
  message : String
deriving DecidableEq, Repr

/-- Outcome of the agent-service probe inside the health handler:
`agent.is_ready()` returned True (with the info used for details),
returned False, or raised. -/
inductive AgentCheck where
  | ready (model : String) (toolsCount : Nat)
  | notReady
  | raises (msg : String)
deriving DecidableEq, Repr

/-- Outcome of the FAISS-service probe: `faiss.is_ready()` returned
True, returned False, or raised. -/
inductive FaissCheck where
  | ready
  | notReady
  | raises (msg : String)
deriving DecidableEq, Repr

/-- `true` when the FAISS probe does not report the service operational
(not ready, or the probe raised). -/
def FaissCheck.unavailable : FaissCheck → Bool
  | .ready => false
  | .notReady => true
  | .raises _ => true

/-- Outcome of the CRM database probe `customer_db.get_customer_count()`:
a count, or a raised exception (e.g., a connection error). -/
inductive DbCheck where
  | ok (count : Nat)
  | raises (msg : String)
deriving DecidableEq, Repr

/-- Body of the `/health` response from `api/models.py` HealthResponse,
with the three fixed component entries the handler populates. -/
structure HealthResponse where
  status : HealthStatus
  agent : ComponentHealth
  faiss : ComponentHealth
  database : ComponentHealth
deriving DecidableEq, Repr

/-- The `/health` handler body (`api/routes.py` lines 245-338):
`overall_status` starts `healthy` and is mutated by the three component
checks exactly as in the source — agent not ready sets it to `degraded`,
an agent-probe exception sets it to `unhealthy`, the FAISS check never
changes it, and a database exception sets it to `unhealthy`. -/
def healthHandler (a : AgentCheck) (f : FaissCheck) (d : DbCheck) :
    HealthResponse :=
  let overall0 := HealthStatus.healthy
  let agentStep : ComponentHealth × HealthStatus :=
    match a with
    | .ready _ _ =>
        (⟨.healthy, "Agent service operational"⟩, overall0)
    | .notReady =>
        (⟨.unhealthy, "Agent service not initialized"⟩, .degraded)
    | .raises e =>
        (⟨.unhealthy, "Agent service error: " ++ e⟩, .unhealthy)
  let faissStep : ComponentHealth × HealthStatus :=
    match f with
    | .ready =>
        (⟨.healthy, "FAISS service operational"⟩, agentStep.2)
    | .notReady =>
        (⟨.degraded, "FAISS service not initialized (optional)"⟩, agentStep.2)
    | .raises e =>
        (⟨.degraded, "FAISS service warning: " ++ e⟩, agentStep.2)
  let dbStep : ComponentHealth × HealthStatus :=
    match d with
    | .ok _ =>
        (⟨.healthy, "Database accessible"⟩, faissStep.2)
    | .raises e =>
        (⟨.unhealthy, "Database error: " ++ e⟩, .unhealthy)
  ⟨dbStep.2, agentStep.1, faissStep.1, dbStep.1⟩

/-- The `get_agent_service` dependency (`api/dependencies.py` lines
16-35): if the singleton is not ready it attempts initialization, and
raises HTTPException 503 when that fails; otherwise it yields the
service. -/
def get_agent_service (ready : Bool) (initOk : Bool) :
    Except (Nat × String) Unit :=
  if ready then .ok ()
  else if initOk then .ok ()
  else .error (503, "Agent service initialization failed")

/-- The `get_customer_manager` dependency (`api/dependencies.py` lines
57-66): it constructs a `CustomerManager`, whose `__init__` eagerly
connects to the CRM database (`create_engine` followed by
`Base.metadata.create_all`) and can therefore raise on a connection
error.  Such an exception is not an HTTPException, so
`general_exception_handler` (api/middleware.py lines 77-98, registered
in main.py) turns it into an HTTP 500 response with detail
"Internal server error occurred". -/
def get_customer_manager (construct : PyResult Unit) :
    Except (Nat × String) Unit :=
  match construct with
  | .ok _ => .ok ()
  | .raises _ => .error (500, "Internal server error occurred")

/-- The full `GET /health` endpoint: FastAPI resolves the handler's
dependencies in parameter order — the agent dependency (which may raise
503), the FAISS dependency (`get_faiss_service` swallows an
initialization failure and never raises, so it needs no parameter
here), and the customer-manager dependency (whose constructor may
raise, yielding 500 via the general exception handler) — and only if
all resolve runs the handler body, returning HTTP 200 with the health
body. -/
def healthEndpoint (agentReady initOk : Bool) (dbConstruct : PyResult Unit)
    (a : AgentCheck) (f : FaissCheck) (d : DbCheck) :
    Except (Nat × String) (Nat × HealthResponse) :=
  match get_agent_service agentReady initOk with
  | .error e => .error e
  | .ok _ =>
      match get_customer_manager dbConstruct with
      | .error e => .error e
      | .ok _ => .ok (200, healthHandler a f d)

/-- C2: whenever the CRM database probe raises, the overall health
status is `unhealthy`, regardless of the agent and FAISS outcomes. -/
theorem health_unhealthy_when_db_fails (a : AgentCheck) (f : FaissCheck)
    (e : String) :
    (healthHandler a f (.raises e)).status = HealthStatus.unhealthy := by
  cases a <;> cases f <;> rfl

/-- C3 counterexample: with the agent ready, the database reachable and
FAISS not ready, the handler reports overall `healthy`, not `degraded`
as the claim states (the FAISS branch never touches `overall_status`). -/
theorem health_faiss_down_overall_healthy_cex :
    (healthHandler (.ready "gpt-4o-mini" 9) .notReady (.ok 25)).status =
      HealthStatus.healthy
  ∧ (healthHandler (.ready "gpt-4o-mini" 9) .notReady (.ok 25)).status ≠
      HealthStatus.degraded := by
  exact ⟨rfl, by decide⟩

/-- C3 amended: while the optional FAISS component is unavailable and
the dispatcher and storage are healthy, the overall status stays
`healthy` (FAISS unavailability never changes it), with
`components.faiss.status = degraded` and the other two components
`healthy`. -/
theorem health_faiss_down_component_degraded (m : String) (k n : Nat)
    (f : FaissCheck) (h : f.unavailable = true) :
    (healthHandler (.ready m k) f (.ok n)).status = HealthStatus.healthy
  ∧ (healthHandler (.ready m k) f (.ok n)).faiss.status = HealthStatus.degraded
  ∧ (healthHandler (.ready m k) f (.ok n)).agent.status = HealthStatus.healthy
  ∧ (healthHandler (.ready m k) f (.ok n)).database.status = HealthStatus.healthy := by
  cases f with
  | ready => simp [FaissCheck.unavailable] at h
  | notReady => exact ⟨rfl, rfl, rfl, rfl⟩
  | raises e => exact ⟨rfl, rfl, rfl, rfl⟩

theorem health_faiss_down_component_degraded_witness :
    (healthHandler (.ready "gpt-4o-mini" 9) .notReady (.ok 25)).faiss.status =
      HealthStatus.degraded :=
  (health_faiss_down_component_degraded "gpt-4o-mini" 9 25 .notReady rfl).2.1

/-- C5 counterexample: `GET /health` does not always return HTTP 200.
When the agent service is uninitialized and its initialization fails,
the agent dependency raises and the response is 503; and even with the
agent dependency resolving and the agent fully ready, a CRM connection
error raised by the CustomerManager constructor inside the database
dependency yields a 500 from the general exception handler. -/
theorem health_not_always_200_cex :
    healthEndpoint false false (.ok ()) .notReady .notReady (.ok 0) =
      .error (503, "Agent service initialization failed")
  ∧ healthEndpoint true true (.raises "unable to open database file")
      (.ready "gpt-4o-mini" 9) .ready (.ok 0) =
      .error (500, "Internal server error occurred") :=
  ⟨rfl, rfl⟩

/-- C5 amended: `GET /health` returns HTTP 200 with the health body
exactly when all its dependencies resolve — the agent service is ready
or its lazy initialization succeeds, and the CustomerManager
construction does not raise.  Otherwise the response is 503 when the
agent service is uninitialized and initialization fails, and 500 (via
the general exception handler) when the agent dependency resolves but
the CustomerManager constructor raises. -/
theorem health_200_when_dependencies_resolve (agentReady initOk : Bool)
    (a : AgentCheck) (f : FaissCheck) (d : DbCheck) (e : String)
    (dep : PyResult Unit)
    (h : agentReady = true ∨ initOk = true) :
    healthEndpoint agentReady initOk (.ok ()) a f d =
      .ok (200, healthHandler a f d)
  ∧ healthEndpoint agentReady initOk (.raises e) a f d =
      .error (500, "Internal server error occurred")
  ∧ healthEndpoint false false dep a f d =
      .error (503, "Agent service initialization failed") := by
  refine ⟨?_, ?_, rfl⟩ <;>
    rcases h with h | h <;>
      simp [healthEndpoint, get_agent_service, get_customer_manager, h]

theorem health_200_when_dependencies_resolve_witness :
    healthEndpoint true false (.ok ()) (.ready "gpt-4o-mini" 9) .ready (.ok 25) =
      .ok (200, healthHandler (.ready "gpt-4o-mini" 9) .ready (.ok 25)) :=
  (health_200_when_dependencies_resolve true false (.ready "gpt-4o-mini" 9)
    .ready (.ok 25) "boom" (.ok ()) (Or.inl rfl)).1

/-- One chunk yielded by `agent.stream` inside the streaming endpoint:
what the event tagger looks at is whether the dict has a top-level
"agent" key or a top-level "tools" key; the rest of the dict is carried
opaquely as `payload`. -/
structure Chunk where
  hasAgentKey : Bool
  hasToolsKey : Bool
  payload : String
deriving DecidableEq, Repr

/-- The server-sent events emitted by `/chat-stream`
(`api/models.py` StreamEventType and StreamEvent): start, agent step,
tool step, end, error — each with the data the handler attaches. -/
inductive StreamEvent where
  | start
  | agent (c : Chunk)
  | tool (c : Chunk)
  | endEvent
  | error (msg : String)
deriving DecidableEq, Repr

/-- The chunk tagger of `event_generator` (`api/routes.py` lines
186-198): a chunk with an "agent" key is tagged agent; otherwise one
with a "tools" key is tagged tool; otherwise agent by default. -/
def chunkEvent (c : Chunk) : StreamEvent :=
  if c.hasAgentKey then .agent c
  else if c.hasToolsKey then .tool c
  else .agent c

/-- The event sequence produced by one run of `event_generator`
(`api/routes.py` lines 163-215): a start event, then one tagged event
per chunk the underlying agent stream yielded, then — because the whole
body sits in one `try`/`except` — either the end event (normal
completion, `failure = none`) or a single error event carrying the
exception message (`failure = some e`, the underlying loop raised after
yielding those chunks), after which the generator is exhausted. -/
def eventGenerator (chunks : List Chunk) (failure : Option String) :
    List StreamEvent :=
  StreamEvent.start :: chunks.map chunkEvent ++
    (match failure with
     | none => [StreamEvent.endEvent]
     | some e => [StreamEvent.error e])

/-- `true` exactly on the start event. -/
def StreamEvent.isStart : StreamEvent → Bool
  | .start => true
  | _ => false

/-- `true` exactly on the step events (agent reasoning or tool). -/
def StreamEvent.isStep : StreamEvent → Bool
  | .agent _ => true
  | .tool _ => true
  | _ => false

/-- `true` exactly on the terminal events (end or error). -/
def StreamEvent.isTerminal : StreamEvent → Bool
  | .endEvent => true
  | .error _ => true
  | _ => false

lemma chunkEvent_isStep (c : Chunk) : (chunkEvent c).isStep = true := by
  unfold chunkEvent
  by_cases h1 : c.hasAgentKey = true
  · simp [h1, StreamEvent.isStep]
  · by_cases h2 : c.hasToolsKey = true <;>
      simp [h1, h2, StreamEvent.isStep]

lemma chunkEvents_no_start (cs : List Chunk) :
    (cs.map chunkEvent).countP StreamEvent.isStart = 0 := by
  induction cs with
  | nil => rfl
  | cons c cs ih =>
      have hstep := chunkEvent_isStep c
      have : (chunkEvent c).isStart = false := by
        cases hc : chunkEvent c <;> simp_all [StreamEvent.isStep, StreamEvent.isStart]
      simp [List.countP_cons, this, ih]

lemma chunkEvents_no_terminal (cs : List Chunk) :
    (cs.map chunkEvent).countP StreamEvent.isTerminal = 0 := by
  induction cs with
  | nil => rfl
  | cons c cs ih =>
      have hstep := chunkEvent_isStep c
      have : (chunkEvent c).isTerminal = false := by
        cases hc : chunkEvent c <;> simp_all [StreamEvent.isStep, StreamEvent.isTerminal]
      simp [List.countP_cons, this, ih]

/-- The terminal event a run produces: end on normal completion, error
when the underlying loop raised. -/
def terminalEvent : Option String → StreamEvent
  | none => .endEvent
  | some e => .error e

/-- C4: every `/chat-stream` run emits exactly one start event and it
comes first; everything strictly between the first and last event is an
agent or tool step; exactly one terminal event is emitted and it is the
last — the end event on normal termination, the error event when the
underlying loop raises — so no events follow the terminal one. -/
theorem chat_stream_event_protocol (cs : List Chunk) (failure : Option String) :
    (eventGenerator cs failure).head? = some StreamEvent.start
  ∧ (eventGenerator cs failure).countP StreamEvent.isStart = 1
  ∧ (∀ e ∈ ((eventGenerator cs failure).drop 1).dropLast, e.isStep = true)
  ∧ (eventGenerator cs failure).countP StreamEvent.isTerminal = 1
  ∧ (eventGenerator cs failure).getLast? = some (terminalEvent failure) := by
  have hgen : eventGenerator cs failure =
      StreamEvent.start :: (cs.map chunkEvent ++ [terminalEvent failure]) := by
    cases failure <;> rfl
  refine ⟨?_, ?_, ?_, ?_, ?_⟩
  · rw [hgen]; rfl
  · rw [hgen, List.countP_cons, List.countP_append, chunkEvents_no_start]
    cases failure <;>
      simp [terminalEvent, List.countP_cons, List.countP_nil, StreamEvent.isStart]
  · intro e he
    rw [hgen] at he
    simp only [List.drop_succ_cons, List.drop_zero] at he
    rw [List.dropLast_concat] at he
    rcases List.mem_map.mp he with ⟨c, _, rfl⟩
    exact chunkEvent_isStep c
  · rw [hgen, List.countP_cons, List.countP_append, chunkEvents_no_terminal]
    cases failure <;>
      simp [terminalEvent, List.countP_cons, List.countP_nil, StreamEvent.isTerminal]
  · rw [hgen, ← List.cons_append, List.getLast?_concat]

/-- C10 counterexample: a chunk carrying both an "agent" key and a
"tools" key is tagged agent (the "agent" branch wins), refuting the
claim that every chunk containing a "tools" key is tagged tool. -/
theorem stream_tag_both_keys_cex :
    chunkEvent ⟨true, true, "p"⟩ = StreamEvent.agent ⟨true, true, "p"⟩
  ∧ chunkEvent ⟨true, true, "p"⟩ ≠ StreamEvent.tool ⟨true, true, "p"⟩ := by
  exact ⟨rfl, by decide⟩

/-- C10 amended: the tag of a forwarded chunk is determined solely by
its top-level keys — tool exactly when it has a "tools" key and no
"agent" key, and agent in every other case (an "agent" key present, or
neither key present). -/
theorem stream_tag_by_keys (c : Chunk) :
    (chunkEvent c = StreamEvent.tool c ↔
      (c.hasAgentKey = false ∧ c.hasToolsKey = true))
  ∧ (chunkEvent c = StreamEvent.agent c ↔
      (c.hasAgentKey = true ∨ c.hasToolsKey = false)) := by
  unfold chunkEvent
  by_cases h1 : c.hasAgentKey = true
  · simp [h1]
  · by_cases h2 : c.hasToolsKey = true <;>
      simp_all [h1, h2]

/-- A registered tool descriptor: name and description, as consumed by
`get_tools_info` and `create_react_agent`. -/
structure Tool where
  name : String
  description : String
deriving DecidableEq, Repr

/-- The tool-assembly portion of `AgentService.initializeAgent`
(`services/agent_service.py` lines 76-103): the three required sources
are called in order inside the surrounding `try` — an exception from
`get_all_search_tools`, `get_all_crm_tools` or `get_sql_tool`
propagates to the outer handler — while the FAISS retriever source
(`faiss_service.get_retriever_tool`) returns None on failure and the
code then continues without it. -/
def initialize_tools (search_tools crm_tools : PyResult (List Tool))
    (sql_tool : PyResult Tool) (retriever_tool : Option Tool) :
    PyResult (List Tool) :=
  match search_tools with
  | .raises e => .raises e
  | .ok s =>
      match crm_tools with
      | .raises e => .raises e
      | .ok c =>
          match sql_tool with
          | .raises e => .raises e
          | .ok q =>
              let tools := s ++ c ++ [q]
              match retriever_tool with
              | some t => .ok (tools ++ [t])
              | none => .ok tools

/-- Mutable state of the AgentService singleton as far as `initialize`
is concerned: whether `agent_executor` is set, and the registered tool
list.  (`self.llm` is not read by any claim; an LLM-constructor failure
behaves like a raising first source: nothing assembled, False returned.) -/
structure AgentState where
  agentExecutor : Bool
  tools : List Tool
deriving DecidableEq, Repr

/-- `AgentService.is_ready` (`services/agent_service.py` lines 240-247):
ready exactly when `agent_executor` is set. -/
def AgentService.is_ready (st : AgentState) : Bool :=
  st.agentExecutor

/-- `AgentService.initializeAgent` (`services/agent_service.py` lines
50-128): an early return True when already initialized; otherwise
assemble the tools (any raising required source is caught by the outer
`except`, which returns False with the state untouched), store them in
`self.tools`, then create the ReAct executor — if that creation raises
(`createAgentOk = false`), the `except` returns False but `self.tools`
keeps the freshly assembled list. -/
def AgentService.initializeAgent (st : AgentState)
    (search_tools crm_tools : PyResult (List Tool))
    (sql_tool : PyResult Tool) (retriever_tool : Option Tool)
    (createAgentOk : Bool) : Bool × AgentState :=
  if st.agentExecutor then (true, st)
  else
    match initialize_tools search_tools crm_tools sql_tool retriever_tool with
    | .raises _ => (false, st)
    | .ok tools =>
        if createAgentOk then (true, ⟨true, tools⟩)
        else (false, ⟨st.agentExecutor, tools⟩)

/-- The five CRM tools of `get_all_crm_tools` (crm_tools.py lines
219-235), by their registered names. -/
def crmToolList : List Tool :=
  [⟨"get_business_client_by_id", "CRM lookup by id"⟩,
   ⟨"get_business_client_by_email", "CRM lookup by email"⟩,
   ⟨"search_business_clients", "CRM search"⟩,
   ⟨"get_active_business_clients", "CRM active clients"⟩,
   ⟨"get_business_client_count", "CRM count"⟩]

/-- The SQL analytics tool of `get_sql_tool` (sql_tools.py). -/
def sqlToolDescr : Tool :=
  ⟨"query_music_database", "Chinook natural-language SQL"⟩

/-- The FAISS retriever tool created by `faiss_service`. -/
def faissToolDescr : Tool :=
  ⟨"langsmith_search", "LangSmith documentation retriever"⟩

/-- C6 counterexample: with an uninitialized service, a raising search
source, and every other source available (5 CRM tools, the SQL tool and
the FAISS tool), `initialize` fails outright — it returns False and
registers none of the available tools, instead of continuing with the
remaining sources. -/
theorem initialize_no_partial_population_cex :
    AgentService.initializeAgent ⟨false, []⟩ (.raises "search backend down")
      (.ok crmToolList) (.ok sqlToolDescr) (some faissToolDescr) true =
      (false, ⟨false, []⟩) := rfl

/-- C6 amended: only the optional FAISS retriever source may fail
independently — when the three required sources succeed,
initialization succeeds with exactly their tools whether or not the
retriever is available — while an exception in the search, CRM or SQL
source propagates to the outer handler and aborts initialization with
no tools registered. -/
theorem initialize_tolerates_faiss_only
    (s c : List Tool) (q : Tool) (ropt : Option Tool)
    (rc : PyResult (List Tool)) (rq : PyResult Tool)
    (ts : List Tool) (e : String) :
    initialize_tools (.ok s) (.ok c) (.ok q) none = .ok (s ++ c ++ [q])
  ∧ initialize_tools (.ok s) (.ok c) (.ok q) (some faissToolDescr) =
      .ok (s ++ c ++ [q] ++ [faissToolDescr])
  ∧ initialize_tools (.raises e) rc rq ropt = .raises e
  ∧ initialize_tools (.ok s) (.raises e) rq ropt = .raises e
  ∧ initialize_tools (.ok s) (.ok c) (.raises e) ropt = .raises e
  ∧ AgentService.initializeAgent ⟨false, ts⟩ (.raises e) rc rq ropt true =
      (false, ⟨false, ts⟩) := by
  exact ⟨rfl, rfl, rfl, rfl, rfl, rfl⟩

/-- C7: when the agent service is already ready, `initialize` is a
no-op returning success: the state — in particular the registered tool
list and hence the registry size — is unchanged, whatever the tool
sources would produce. -/
theorem initialize_idempotent_when_ready (st : AgentState)
    (h : AgentService.is_ready st = true)
    (search_tools crm_tools : PyResult (List Tool)) (sql_tool : PyResult Tool)
    (retriever_tool : Option Tool) (createAgentOk : Bool) :
    AgentService.initializeAgent st search_tools crm_tools sql_tool retriever_tool
        createAgentOk = (true, st)
  ∧ (AgentService.initializeAgent st search_tools crm_tools sql_tool retriever_tool
        createAgentOk).2.tools.length = st.tools.length := by
  unfold AgentService.initializeAgent
  unfold AgentService.is_ready at h
  rw [h]
  exact ⟨rfl, rfl⟩

theorem initialize_idempotent_when_ready_witness :
    AgentService.initializeAgent ⟨true, crmToolList ++ [sqlToolDescr]⟩
        (.ok []) (.ok crmToolList) (.ok sqlToolDescr) none true =
      (true, ⟨true, crmToolList ++ [sqlToolDescr]⟩) :=
  (initialize_idempotent_when_ready ⟨true, crmToolList ++ [sqlToolDescr]⟩ rfl
    (.ok []) (.ok crmToolList) (.ok sqlToolDescr) none true).1

/-- The wire roles of `api/models.py` MessageRole. -/
inductive MessageRole where
  | user
  | assistant
  | system
deriving DecidableEq, Repr

/-- Parsing of a wire role string into the MessageRole enum, as pydantic
does when validating `ConversationMessage.role`. -/
def MessageRole.ofString : String → Option MessageRole
  | "user" => some .user
  | "assistant" => some .assistant
  | "system" => some .system
  | _ => none

/-- A validation failure as FastAPI reports it: HTTP status code and the
name of the offending field. -/
structure ValidationError where
  statusCode : Nat
  loc : String
deriving DecidableEq, Repr

/-- Request validation of `conversation_history` (`api/models.py`
ChatRequest / ConversationMessage): each entry's role string must parse
into the MessageRole enum; a value outside the enum makes FastAPI
reject the request with a 422 validation error located at the `role`
field. -/
def validateHistory : List (String × String) →
    Except ValidationError (List (MessageRole × String))
  | [] => .ok []
  | (r, c) :: rest =>
      match MessageRole.ofString r with
      | none => .error ⟨422, "role"⟩
      | some role =>
          match validateHistory rest with
          | .error e => .error e
          | .ok tl => .ok ((role, c) :: tl)

/-- The LangChain message classes flowing through the agent, as the
route code distinguishes them by `__class__.__name__`: HumanMessage,
AIMessage (which carries the tool calls the model requested — a
tool-call message is an AIMessage with a non-empty `tool_calls` list),
SystemMessage, and ToolMessage (a tool result correlated by id). -/
inductive LCMessage where
  | human (content : String)
  | ai (content : String) (toolCalls : List (String × String))
  | system (content : String)
  | toolResult (content : String) (toolCallId : String)
deriving DecidableEq, Repr

/-- The history conversion in `AgentService.invoke`
(`services/agent_service.py` lines 154-159): an entry with role user
becomes a HumanMessage, role assistant an AIMessage, and any other role
— including system, which passed validation — matches no branch and is
silently dropped. -/
def historyToMessages : List (MessageRole × String) → List LCMessage
  | [] => []
  | (role, content) :: rest =>
      match role with
      | .user => .human content :: historyToMessages rest
      | .assistant => .ai content [] :: historyToMessages rest
      | .system => historyToMessages rest

/-- One step of the response-history loop of the `/chat` handler
(`api/routes.py` lines 89-101): a HumanMessage appends a user entry, an
AIMessage appends an assistant entry and becomes the candidate final
answer, and every other class is skipped. -/
def chatStep (acc : List (MessageRole × String) × String) (m : LCMessage) :
    List (MessageRole × String) × String :=
  match m with
  | .human c => (acc.1 ++ [(.user, c)], acc.2)
  | .ai c _ => (acc.1 ++ [(.assistant, c)], c)
  | .system _ => acc
  | .toolResult _ _ => acc

/-- The `/chat` handler's response assembly over the dispatch result's
message list: the wire conversation history and the assistant message
(the content of the last AIMessage seen). -/
def buildChatResponse (msgs : List LCMessage) :
    List (MessageRole × String) × String :=
  msgs.foldl chatStep ([], "")

/-- The wire entry a single internal message contributes, if any:
HumanMessage and AIMessage map to user/assistant entries with their
content, the other classes to nothing. -/
def wireEntry : LCMessage → Option (MessageRole × String)
  | .human c => some (.user, c)
  | .ai c _ => some (.assistant, c)
  | .system _ => none
  | .toolResult _ _ => none

lemma chatFold_history (msgs : List LCMessage)
    (acc : List (MessageRole × String)) (s : String) :
    (msgs.foldl chatStep (acc, s)).1 = acc ++ msgs.filterMap wireEntry := by
  induction msgs generalizing acc s with
  | nil => simp
  | cons m ms ih =>
      cases m <;>
        simp [chatStep, wireEntry, List.filterMap_cons, ih, List.append_assoc]

/-- C8 counterexample: a conversation-history entry with role system —
inside the claimed set — is not mapped to an internal system message by
the conversion in `AgentService.invoke`; it is dropped, leaving no
internal message at all. -/
theorem history_system_role_dropped_cex :
    historyToMessages [(MessageRole.system, "Answer tersely.")] = []
  ∧ historyToMessages [(MessageRole.system, "Answer tersely.")] ≠
      [LCMessage.system "Answer tersely."] := by
  exact ⟨rfl, by decide⟩

/-- C8 amended: the conversion maps user entries to HumanMessages and
assistant entries to AIMessages, preserving content, but drops system
entries; and any request whose history contains an entry with a role
string outside the enum (e.g. "bogus") is rejected with a 422
validation error naming the role field. -/
theorem history_role_mapping (rest : List (MessageRole × String))
    (c : String) (raw : List (String × String))
    (h : ∃ p ∈ raw, MessageRole.ofString p.1 = none) :
    historyToMessages ((.user, c) :: rest) =
      .human c :: historyToMessages rest
  ∧ historyToMessages ((.assistant, c) :: rest) =
      .ai c [] :: historyToMessages rest
  ∧ historyToMessages ((.system, c) :: rest) = historyToMessages rest
  ∧ validateHistory raw = .error ⟨422, "role"⟩ := by
  refine ⟨rfl, rfl, rfl, ?_⟩
  induction raw with
  | nil => simp at h
  | cons p rest2 ih =>
      obtain ⟨q, hq, hbad⟩ := h
      rcases List.mem_cons.mp hq with h1 | hq2
      · subst h1
        obtain ⟨r, c2⟩ := q
        simp only at hbad
        simp [validateHistory, hbad]
      · obtain ⟨r, c2⟩ := p
        have hrec := ih ⟨q, hq2, hbad⟩
        cases hr : MessageRole.ofString r with
        | none => simp [validateHistory, hr]
        | some role => simp [validateHistory, hr, hrec]

theorem history_role_mapping_witness :
    validateHistory [("bogus", "x")] = .error ⟨422, "role"⟩ :=
  (history_role_mapping [] "x" [("bogus", "x")]
    ⟨("bogus", "x"), List.mem_singleton.mpr rfl, rfl⟩).2.2.2

/-- A dispatch run's message list with one tool call: the system prompt,
the user turn, the assistant tool-call message (an AIMessage with empty
content and a non-empty tool_calls list), the tool result, and the
final assistant answer. -/
def chatRunMessages : List LCMessage :=
  [.system "You are a helpful assistant.",
   .human "How many active customers do we have?",
   .ai "" [("get_active_business_clients", "")],
   .toolResult "Total Active Business Clients: 12" "call_1",
   .ai "There are 12 active business clients." []]

/-- C9 counterexample: on a run with one tool call, the wire history
built by the `/chat` handler contains a third entry — the assistant
tool-call message, kept because its class is AIMessage — so tool-call
messages are not omitted as the claim states. -/
theorem chat_history_keeps_tool_call_cex :
    (buildChatResponse chatRunMessages).1 =
      [(.user, "How many active customers do we have?"),
       (.assistant, ""),
       (.assistant, "There are 12 active business clients.")]
  ∧ ((MessageRole.assistant, "") : MessageRole × String) ∈
      (buildChatResponse chatRunMessages).1 := by
  exact ⟨rfl, by decide⟩

/-- C9 amended: the wire history returned by `/chat` contains only
user-role and assistant-role entries and is the identity on role and
content for HumanMessage/AIMessage items, omitting system and
tool-result messages; assistant tool-call messages, however, are kept
(they are AIMessages), contributing an assistant entry with their
(possibly empty) content. -/
theorem chat_wire_history_shape (msgs : List LCMessage) :
    (buildChatResponse msgs).1 = msgs.filterMap wireEntry
  ∧ ∀ p ∈ (buildChatResponse msgs).1,
      p.1 = MessageRole.user ∨ p.1 = MessageRole.assistant := by
  have hfold := chatFold_history msgs [] ""
  constructor
  · simpa [buildChatResponse] using hfold
  · intro p hp
    rw [buildChatResponse, hfold] at hp
    simp only [List.nil_append] at hp
    rcases List.mem_filterMap.mp hp with ⟨m, _, hm⟩
    cases m with
    | human c => exact Or.inl (by cases hm; rfl)
    | ai c tc => exact Or.inr (by cases hm; rfl)
    | system c => simp [wireEntry] at hm
    | toolResult c i => simp [wireEntry] at hm

end AgenticRag
